import Mathlib

/-
Verification of the pycketcasts client library (src/pycketcasts/pocketcasts.py)
against its natural-language specification.

Modelling conventions (shallow embedding of the Python source):
* a Python `str` is a `List Char` (abbreviated `Str`);
* a parsed JSON value is a `JVal`; a Python `dict` coming from JSON is a
  `jobj` carrying an association list;
* `dict.get(k)` returns `Option JVal` (`none` models Python `None` for an
  absent key);
* a Python expression that may raise is modelled with `PyOut α`:
  `.val a` is normal return, `.exn msg` an uncaught exception;
* a computation that may fail to terminate is wrapped in `Option`
  (`none` = divergence), established against a fuelled interpreter of the
  mutually recursive attribute accesses;
* the HTTP layer is an oracle passed in as a function: a
  `Response` is its truthiness (`ok`, Python `bool(response)`) together
  with the parsed body (`res.json()`); operations return the list of
  requests they issued so that "exactly one request" claims are statable.
-/

namespace PycketCasts

/-- Python strings, embedded as lists of characters. -/
abbrev Str := List Char

/-- Shorthand turning a Lean string literal into the embedded string type. -/
def str (s : String) : Str := s.data

/-- Parsed JSON values (the payloads the client wraps). -/
inductive JVal where
  | jnull
  | jbool (b : Bool)
  | jint (n : Int)
  | jstr (s : Str)
  | jarr (xs : List JVal)
  | jobj (fields : List (Str × JVal))

/-- Outcome of evaluating a Python expression: a value or a raised exception. -/
inductive PyOut (α : Type) where
  | val (a : α)
  | exn (msg : Str)

/-- Association-list lookup, modelling Python `dict` key lookup
(`dict.get` / `dict[k]` both key on this). -/
def dictGet {α : Type} : List (Str × α) → Str → Option α
  | [], _ => none
  | (k, v) :: rest, k' => if k = k' then some v else dictGet rest k'

/-- Python truthiness of a JSON value (`bool(x)`). -/
def truthy : JVal → Bool
  | .jnull => false
  | .jbool b => b
  | .jint n => n != 0
  | .jstr s => !s.isEmpty
  | .jarr xs => !xs.isEmpty
  | .jobj fs => !fs.isEmpty

/-- Python truthiness of an optional value (`None` is falsy). -/
def truthyOpt : Option JVal → Bool
  | none => false
  | some v => truthy v

/-- Python `x.get(k)` on a JSON value: only dicts have `.get`; on anything
else attribute lookup raises `AttributeError`. -/
def pyGet (d : JVal) (k : Str) : PyOut (Option JVal) :=
  match d with
  | .jobj fs => .val (dictGet fs k)
  | _ => .exn (str "AttributeError")

/-- Python `x[k]` subscript with a string key: `KeyError` on a dict missing
the key, `TypeError` on non-dicts. -/
def pySubscript (d : JVal) (k : Str) : PyOut JVal :=
  match d with
  | .jobj fs =>
      match dictGet fs k with
      | some v => .val v
      | none => .exn (str "KeyError")
  | _ => .exn (str "TypeError")

/-- Python `int(x)` applied to a value obtained from `dict.get`:
`int(None)` raises `TypeError`, strings must parse, containers raise. -/
def pyInt : Option JVal → PyOut Int
  | none => .exn (str "TypeError")
  | some (.jint n) => .val n
  | some (.jbool b) => .val (if b then 1 else 0)
  | some (.jstr s) =>
      match (String.mk s).toInt? with
      | some n => .val n
      | none => .exn (str "ValueError")
  | some _ => .exn (str "TypeError")

/-- Python `v > 0` for a value obtained from `dict.get`: comparison with an
`int` is defined for numbers and booleans, `None` and the rest raise
`TypeError`. -/
def pyGtZero : Option JVal → PyOut Bool
  | some (.jint n) => .val (decide (0 < n))
  | some (.jbool b) => .val b
  | _ => .exn (str "TypeError")

/-- Python `p > v` for an `int` `p` and a value obtained from `dict.get`
(used by `update_progress` against `self.duration`). -/
def pyGtInt (p : Int) : Option JVal → PyOut Bool
  | some (.jint n) => .val (decide (n < p))
  | some (.jbool b) => .val (decide ((if b then (1 : Int) else 0) < p))
  | _ => .exn (str "TypeError")

/-- The module-level `endpoints` table of src/pycketcasts/pocketcasts.py. -/
def endpoints : List (Str × Str) :=
  [ (str "login", str "user/login"),
    (str "list", str "user/podcast/list"),
    (str "new_releases", str "user/new_releases"),
    (str "in_progress", str "user/in_progress"),
    (str "starred", str "user/starred"),
    (str "history", str "user/history"),
    (str "stats", str "user/stats/summary"),
    (str "search", str "discover/search"),
    (str "recommendations", str "discover/recommend_episodes"),
    (str "categories", str "categories_v2"),
    (str "content", str "content"),
    (str "featured", str "featured"),
    (str "networks", str "network_list_v2"),
    (str "popular", str "popular"),
    (str "trending", str "trending"),
    (str "episode", str "user/podcast/episode"),
    (str "episodes", str "user/podcast/episodes"),
    (str "subscribe", str "user/podcast/subscribe"),
    (str "unsubscribe", str "user/podcast/unsubscribe"),
    (str "episode_archive", str "sync/update_episode_archive"),
    (str "episode_star", str "sync/update_episode_star"),
    (str "up_next", str "up_next/list"),
    (str "play_status", str "sync/update_episode"),
    (str "play_next", str "up_next/play_next"),
    (str "play_last", str "up_next/play_last"),
    (str "share", str "podcasts/share_link"),
    (str "account", str "subscription/status"),
    (str "upload", str "files/upload/request"),
    (str "files", str "files") ]

/-- `_get_endpoint(name)`: `endpoints.get(name)`, `None` for unknown names. -/
def _get_endpoint (name : Str) : Option Str :=
  dictGet endpoints name

/-- `_make_url(base, endpoint, suffix)`: strip one leading slash from
`endpoint` if present, then produce `f"{base}/{endpoint}{suffix}"`. -/
def _make_url (base endpoint suffix : Str) : Str :=
  let e := match endpoint with
    | '/' :: rest => rest
    | other => other
  base ++ ['/'] ++ e ++ suffix

/-- `PocketCast._api_base`. -/
def _api_base : Str := str "https://api.pocketcasts.com"

/-- `PocketCast._lists_base`. -/
def _lists_base : Str := str "https://lists.pocketcasts.com"

/-- An HTTP request as issued through the session component. -/
structure Request where
  method : Str
  url : Str
  body : List (Str × JVal)

/-- An HTTP response: Python truthiness of the `requests.Response`
(`ok`) plus the parsed JSON body (`res.json()`). -/
structure Response where
  ok : Bool
  body : JVal

/-- `PocketCast._get_json`: returns `res.json()` when the response is
truthy and `{}` otherwise. -/
def _get_json (res : Response) : JVal :=
  if res.ok then res.body else .jobj []

/-- `PocketCast._post_json`: returns `res.json()` when the response is
truthy and `{}` otherwise. -/
def _post_json (res : Response) : JVal :=
  if res.ok then res.body else .jobj []

/-- `PocketCast._login`: posts the credentials, and on a truthy `data`
stores `data['token']` as the session token (a `KeyError` escapes when the
field is absent); on a falsy `data` the token field is left unchanged.
Takes the login `Response` and the token slot before the call, yields the
token slot after the call. -/
def _login (res : Response) (token : Option JVal) : PyOut (Option JVal) :=
  let data := _post_json res
  if truthy data then
    match pySubscript data (str "token") with
    | .exn m => .exn m
    | .val v => .val (some v)
  else .val token

/-- The `Podcast` adapter: `__init__` stores the payload, the extended
payload (default `{}`) and the `full_item` flag (default `False`). -/
structure Podcast where
  _data : JVal
  _extended_json : JVal
  _full_item : Bool

/-- `Podcast.id`: `self._data.get('uuid')`. -/
def Podcast.id (p : Podcast) : PyOut (Option JVal) :=
  pyGet p._data (str "uuid")

/-- The mutable state of an `Episode` adapter: the payload and the
lazily-resolved `_podcast` slot (`none` models Python `None`, the only
falsy value the slot takes). -/
structure EpisodeState where
  _data : JVal
  _podcast : Option Podcast

mutual

/-- Fuelled interpreter of the `Episode.podcast_id` property:
`self._data.get('podcastUuid') if self._data.get('podcastUuid') else
self.podcast.id`.  `none` means the recursion did not finish within
`fuel` steps.  `fetch` is the network oracle behind
`api.get_podcast_by_id` (its argument the `podcast_id` value).
`apiSet` records whether `self._api` has been assigned yet: `__init__`
assigns it only after the lazy fetch, so it is `false` while the
line-67 fetch's argument is evaluated and `true` on every fully
constructed instance. -/
def podcastIdF (fetch : Option JVal → Option Podcast) (apiSet : Bool) :
    Nat → EpisodeState → Option (PyOut (Option JVal))
  | 0, _ => none
  | fuel + 1, s =>
    match pyGet s._data (str "podcastUuid") with
    | .exn m => some (.exn m)
    | .val v =>
      if truthyOpt v then some (.val v)
      else
        match podcastPropF fetch apiSet fuel s with
        | none => none
        | some (.exn m) => some (.exn m)
        | some (.val none) => some (.exn (str "AttributeError"))
        | some (.val (some p)) => some (Podcast.id p)

/-- Fuelled interpreter of the `Episode.podcast` property: return
`self._podcast` if truthy, else evaluate
`self._api.get_podcast_by_id(self.podcast_id)` — the `self._api`
attribute is read first, so when it has not been assigned yet
(`apiSet = false`, i.e. during `__init__`) this raises `AttributeError`
before the argument `self.podcast_id` is evaluated and before any
network call; with `self._api` present the argument is evaluated, then
the fetch runs.  In the source the returned value is also assigned to
`self._podcast`; `podcast_read` below records that update together with
the call count. -/
def podcastPropF (fetch : Option JVal → Option Podcast) (apiSet : Bool) :
    Nat → EpisodeState → Option (PyOut (Option Podcast))
  | 0, _ => none
  | fuel + 1, s =>
    match s._podcast with
    | some p => some (.val (some p))
    | none =>
      if apiSet then
        match podcastIdF fetch apiSet fuel s with
        | none => none
        | some (.exn m) => some (.exn m)
        | some (.val pid) => some (.val (fetch pid))
      else some (.exn (str "AttributeError"))

end

/-- `Episode.podcast_id` on a fully constructed instance (`self._api`
assigned), direct form: the truthy `podcastUuid` branch returns the
payload field; the fallback `self.podcast.id` returns the id of a
resolved `_podcast`, and diverges (`none`) when `_podcast` is unset,
since `self.podcast` then re-enters `self.podcast_id` on unchanged state
(`podcast_id_agrees_with_fuel` ties this to the fuelled interpreter at
`apiSet = true`). -/
def podcast_id (s : EpisodeState) : Option (PyOut (Option JVal)) :=
  match pyGet s._data (str "podcastUuid") with
  | .exn m => some (.exn m)
  | .val v =>
    if truthyOpt v then some (.val v)
    else
      match s._podcast with
      | some p => some (Podcast.id p)
      | none => none

/-- `Episode.__init__`: store the payload and the `podcast` argument;
when the latter is falsy, resolve it at once via
`api.get_podcast_by_id(podcast_id=self.podcast_id)` — the local `api`
parameter, but the argument `self.podcast_id` is evaluated while
`self._api` is still unassigned (`__init__` assigns it only on the next
line), hence `apiSet = false` there.  A returned `EpisodeState` is a
fully constructed instance, on which `self._api` is then assigned. -/
def episodeInit (fetch : Option JVal → Option Podcast) (fuel : Nat)
    (data : JVal) (podcast : Option Podcast) : Option (PyOut EpisodeState) :=
  match podcast with
  | some p => some (.val ⟨data, some p⟩)
  | none =>
    match podcastIdF fetch false fuel ⟨data, none⟩ with
    | none => none
    | some (.exn m) => some (.exn m)
    | some (.val pid) => some (.val ⟨data, fetch pid⟩)

/-- One read of the `Episode.podcast` property with the instance state and
the running count of fetch-by-id network calls: a truthy `_podcast` is
returned as is; otherwise `api.get_podcast_by_id(self.podcast_id)` issues
one network call and its result is stored in `_podcast` and returned.
The oracle is indexed by the call count so that the remote entity may
change between calls.  `none` means `self.podcast_id` diverged. -/
def podcast_read (fetch : Nat → Option JVal → Option Podcast)
    (s : EpisodeState) (calls : Nat) :
    Option (PyOut (Option Podcast) × EpisodeState × Nat) :=
  match s._podcast with
  | some p => some (.val (some p), s, calls)
  | none =>
    match podcast_id s with
    | none => none
    | some (.exn m) => some (.exn m, s, calls)
    | some (.val pid) =>
      let r := fetch calls pid
      some (.val r, ⟨s._data, r⟩, calls + 1)

/-- Python `None` as a dict value: `dict.get` results flow into request
bodies, where an absent field contributes JSON `null`. -/
def optJ : Option JVal → JVal
  | none => .jnull
  | some v => v

/-- `Episode.title`: `self._data.get('title')`. -/
def Episode.title (d : JVal) : PyOut (Option JVal) := pyGet d (str "title")

/-- `Episode.id`: `self._data.get('uuid')`. -/
def Episode.id (d : JVal) : PyOut (Option JVal) := pyGet d (str "uuid")

/-- `Episode.duration`: `self._data.get('duration')`. -/
def Episode.duration (d : JVal) : PyOut (Option JVal) := pyGet d (str "duration")

/-- `Episode.url`: `self._data.get('url')`. -/
def Episode.url (d : JVal) : PyOut (Option JVal) := pyGet d (str "url")

/-- `Episode.size`: `self._data.get('size')`. -/
def Episode.size (d : JVal) : PyOut (Option JVal) := pyGet d (str "size")

/-- `Episode.starred`: `self._data.get('starred')`. -/
def Episode.starred (d : JVal) : PyOut (Option JVal) := pyGet d (str "starred")

/-- `Episode.current_position`: `self._data.get('playedUpTo')`. -/
def Episode.current_position (d : JVal) : PyOut (Option JVal) :=
  pyGet d (str "playedUpTo")

/-- `Episode.playing`: `True if self._data.get('playing_status') > 0 else
False`; the comparison raises `TypeError` when the field is absent. -/
def Episode.playing (d : JVal) : PyOut Bool :=
  match pyGet d (str "playing_status") with
  | .exn m => .exn m
  | .val v => pyGtZero v

/-- `Stats.silence_time_removed`:
`int(self._data.get('timeSilenceRemoval'))`; `int(None)` raises
`TypeError` when the field is absent. -/
def Stats.silence_time_removed (d : JVal) : PyOut Int :=
  match pyGet d (str "timeSilenceRemoval") with
  | .exn m => .exn m
  | .val v => pyInt v

/-- `Episode.update_progress(progress)`: raise when
`progress > self.duration`, otherwise POST
`{'uuid': self.id, 'podcast': self.podcast_id, 'status': 2,
'position': progress}` to the `play_status` endpoint and return the
truthiness of the response.  `post` is the network oracle; the returned
list collects the requests issued.  The outer `none` is divergence of
`self.podcast_id`. -/
def update_progress (post : Request → Bool) (s : EpisodeState)
    (progress : Int) : Option (PyOut Bool × List Request) :=
  match Episode.duration s._data with
  | .exn m => some (.exn m, [])
  | .val dv =>
    match pyGtInt progress dv with
    | .exn m => some (.exn m, [])
    | .val true =>
      some (.exn (str "Cannot update with progress longer than episode duration"), [])
    | .val false =>
      match _get_endpoint (str "play_status") with
      | none => some (.exn (str "AttributeError"), [])
      | some e =>
        let url := _make_url _api_base e []
        match Episode.id s._data with
        | .exn m => some (.exn m, [])
        | .val uuid =>
          match podcast_id s with
          | none => none
          | some (.exn m) => some (.exn m, [])
          | some (.val pid) =>
            let req : Request :=
              ⟨str "POST", url,
               [(str "uuid", optJ uuid), (str "podcast", optJ pid),
                (str "status", .jint 2), (str "position", .jint progress)]⟩
            some (.val (post req), [req])

/-- Exception-propagating map over a list (a Python `for` loop that
appends `f x` for each element, stopping at the first raised exception). -/
def mapPy {α β : Type} (f : α → PyOut β) : List α → PyOut (List β)
  | [] => .val []
  | x :: xs =>
    match f x with
    | .exn m => .exn m
    | .val b =>
      match mapPy f xs with
      | .exn m => .exn m
      | .val bs => .val (b :: bs)

/-- `PocketCast._make_podcast`: wrap `json_data['podcast']` with the rest
of the payload as extended data when that field is truthy, else wrap the
payload itself. -/
def _make_podcast (json_data : JVal) : PyOut Podcast :=
  match pyGet json_data (str "podcast") with
  | .exn m => .exn m
  | .val v =>
    match v with
    | some pd =>
      if truthy pd then .val ⟨pd, json_data, false⟩
      else .val ⟨json_data, .jobj [], false⟩
    | none => .val ⟨json_data, .jobj [], false⟩

/-- `PocketCast._make_podcasts`: when `json_data` and
`json_data.get('podcasts')` are truthy, build one `Podcast` per element of
`json_data['podcasts']` (iterating a dict yields its keys, a string its
characters), else return `[]`. -/
def _make_podcasts (json_data : JVal) : PyOut (List Podcast) :=
  if truthy json_data then
    match pyGet json_data (str "podcasts") with
    | .exn m => .exn m
    | .val v =>
      if truthyOpt v then
        match v with
        | some (.jarr xs) => mapPy _make_podcast xs
        | some (.jobj fs) => mapPy _make_podcast (fs.map (fun kv => JVal.jstr kv.1))
        | some (.jstr cs) => mapPy _make_podcast (cs.map (fun c => JVal.jstr [c]))
        | _ => .exn (str "TypeError")
      else .val []
  else .val []

/-- `PocketCast._make_episode`: unwrap a truthy `json_data['episode']`
field, then construct the `Episode` (whose `__init__` may itself fetch or
diverge, hence the fuel and oracle). -/
def _make_episode (fetch : Option JVal → Option Podcast) (fuel : Nat)
    (json_data : JVal) (podcast : Option Podcast) :
    Option (PyOut EpisodeState) :=
  match pyGet json_data (str "episode") with
  | .exn m => some (.exn m)
  | .val v =>
    match v with
    | some ep =>
      if truthy ep then episodeInit fetch fuel ep podcast
      else episodeInit fetch fuel json_data podcast
    | none => episodeInit fetch fuel json_data podcast

/-- Exception- and divergence-propagating map (a Python `for` loop whose
body may raise or diverge). -/
def mapPyD {α β : Type} (f : α → Option (PyOut β)) :
    List α → Option (PyOut (List β))
  | [] => some (.val [])
  | x :: xs =>
    match f x with
    | none => none
    | some (.exn m) => some (.exn m)
    | some (.val b) =>
      match mapPyD f xs with
      | none => none
      | some (.exn m) => some (.exn m)
      | some (.val bs) => some (.val (b :: bs))

/-- `PocketCast._make_episodes`: when `json_data` and
`json_data.get('episodes')` are truthy, build one `Episode` per element of
`json_data['episodes']`, else return `[]`. -/
def _make_episodes (fetch : Option JVal → Option Podcast) (fuel : Nat)
    (json_data : JVal) (podcast : Option Podcast) :
    Option (PyOut (List EpisodeState)) :=
  if truthy json_data then
    match pyGet json_data (str "episodes") with
    | .exn m => some (.exn m)
    | .val v =>
      if truthyOpt v then
        match v with
        | some (.jarr xs) =>
          mapPyD (fun ep => _make_episode fetch fuel ep podcast) xs
        | some (.jobj fs) =>
          mapPyD (fun kv => _make_episode fetch fuel (JVal.jstr kv.1) podcast) fs
        | some (.jstr cs) =>
          mapPyD (fun c => _make_episode fetch fuel (JVal.jstr [c]) podcast) cs
        | _ => some (.exn (str "TypeError"))
      else some (.val [])
  else some (.val [])

/-- The `Category` adapter: `__init__` stores the payload it is given. -/
structure Category where
  _data : JVal

/-- `Category.name`: `self._data.get('name')`. -/
def Category.name (c : Category) : PyOut (Option JVal) :=
  pyGet c._data (str "name")

/-- `PocketCast._make_categories` as written in the source: the loop body
appends `self._make_category(json_data=json_data)` — the whole payload,
not the loop variable `cat` — once per element of `json_data`. -/
def _make_categories (json_data : JVal) : PyOut (List Category) :=
  if truthy json_data then
    match json_data with
    | .jarr xs => .val (xs.map (fun _ => Category.mk json_data))
    | .jobj fs => .val (fs.map (fun _ => Category.mk json_data))
    | .jstr cs => .val (cs.map (fun _ => Category.mk json_data))
    | _ => .exn (str "TypeError")
  else .val []

/-- Modelled from the spec: the category construction the spec describes
(one `Category` per element of the returned array), i.e. the loop body
with `cat` in place of `json_data`; the source deviates from this. -/
def _make_categories_intended (json_data : JVal) : PyOut (List Category) :=
  if truthy json_data then
    match json_data with
    | .jarr xs => .val (xs.map Category.mk)
    | .jobj fs => .val (fs.map (fun kv => Category.mk (JVal.jstr kv.1)))
    | .jstr cs => .val (cs.map (fun c => Category.mk (JVal.jstr [c])))
    | _ => .exn (str "TypeError")
  else .val []

/-- Python `.lower()` on a value obtained from `dict.get`: defined for
strings only, `AttributeError` otherwise (including `None`). -/
def pyLower : Option JVal → PyOut Str
  | some (.jstr s) => .val (s.map Char.toLower)
  | _ => .exn (str "AttributeError")

/-- The loop of `PocketCast.category`: return the first category whose
lowercased name equals the lowercased query, `None` when none does. -/
def categoryScan (category_name : Str) : List Category → PyOut (Option Category)
  | [] => .val none
  | c :: rest =>
    match Category.name c with
    | .exn m => .exn m
    | .val v =>
      match pyLower v with
      | .exn m => .exn m
      | .val s =>
        if s = category_name.map Char.toLower then .val (some c)
        else categoryScan category_name rest

/-- `PocketCast.category(category_name)`: scan `self.categories` (the
categories endpoint response run through `_make_categories`). -/
def category (res : Response) (category_name : Str) : PyOut (Option Category) :=
  match _make_categories (_get_json res) with
  | .exn m => .exn m
  | .val cs => categoryScan category_name cs

/-- Modelled from the spec: `category` over the intended category list. -/
def category_intended (res : Response) (category_name : Str) :
    PyOut (Option Category) :=
  match _make_categories_intended (_get_json res) with
  | .exn m => .exn m
  | .val cs => categoryScan category_name cs

/-- `PocketCast.subscriptions`: POST to the `list` endpoint, wrap with
`_make_podcasts`. -/
def subscriptions (res : Response) : PyOut (List Podcast) :=
  _make_podcasts (_post_json res)

/-- `PocketCast.search(keyword)`: POST to the `search` endpoint, wrap with
`_make_podcasts`. -/
def search (res : Response) : PyOut (List Podcast) :=
  _make_podcasts (_post_json res)

/-- `PocketCast.trending` (likewise `popular` and `featured`): GET from
the lists base, wrap with `_make_podcasts`. -/
def trending (res : Response) : PyOut (List Podcast) :=
  _make_podcasts (_get_json res)

/-- `PocketCast.content(list_id)`: GET the static list, wrap with
`_make_podcasts`. -/
def content (res : Response) : PyOut (List Podcast) :=
  _make_podcasts (_get_json res)

/-- `PocketCast.starred` (the listing pipelines for `starred`, `history`,
`in_progress`, `new_releases` and `recommendations` are identical): POST,
wrap with `_make_episodes` with no podcast back-reference. -/
def starredList (fetch : Option JVal → Option Podcast) (fuel : Nat)
    (res : Response) : Option (PyOut (List EpisodeState)) :=
  _make_episodes fetch fuel (_post_json res) none

/-- `PocketCast.history`. -/
def historyList (fetch : Option JVal → Option Podcast) (fuel : Nat)
    (res : Response) : Option (PyOut (List EpisodeState)) :=
  _make_episodes fetch fuel (_post_json res) none

/-- `PocketCast.in_progress`. -/
def in_progressList (fetch : Option JVal → Option Podcast) (fuel : Nat)
    (res : Response) : Option (PyOut (List EpisodeState)) :=
  _make_episodes fetch fuel (_post_json res) none

/-- `PocketCast.new_releases`. -/
def new_releasesList (fetch : Option JVal → Option Podcast) (fuel : Nat)
    (res : Response) : Option (PyOut (List EpisodeState)) :=
  _make_episodes fetch fuel (_post_json res) none

/-- `PocketCast.recommendations`. -/
def recommendationsList (fetch : Option JVal → Option Podcast) (fuel : Nat)
    (res : Response) : Option (PyOut (List EpisodeState)) :=
  _make_episodes fetch fuel (_post_json res) none

/-- The `File` adapter.  Its `__init__` assigns only `self._data`; the
`_api` slot records whether the instance ever received an api
back-reference (`none` = the attribute was never assigned, so reading it
raises `AttributeError`). -/
structure FileObj where
  _data : JVal
  _api : Option Unit

/-- `File.__init__(data)`: stores `_data` and nothing else — in
particular it never assigns `self._api`. -/
def fileInit (data : JVal) : FileObj := ⟨data, none⟩

/-- `File.id`: `self._data.get('uuid')`. -/
def FileObj.id (f : FileObj) : PyOut (Option JVal) :=
  pyGet f._data (str "uuid")

/-- `File.title`: `self._data.get('title')`. -/
def FileObj.title (f : FileObj) : PyOut (Option JVal) :=
  pyGet f._data (str "title")

/-- `File.colour`: `int(self._data.get('colour'))`. -/
def FileObj.colour (f : FileObj) : PyOut Int :=
  match pyGet f._data (str "colour") with
  | .exn m => .exn m
  | .val v => pyInt v

/-- Python `str(x)` of a dict value for f-string interpolation (container
reprs abbreviated; only reachable behind a resolved `_api`). -/
def pyStrOf : Option JVal → Str
  | none => str "None"
  | some (.jstr s) => s
  | some (.jint n) => (toString n).data
  | some (.jbool b) => if b then str "True" else str "False"
  | some .jnull => str "None"
  | some _ => str "<container>"

/-- `File.delete`: build `f"{self._api._api_base}/files/{self.id}"` — the
very first step reads `self._api` — then issue one DELETE and return the
truthiness of the response. -/
def fileDelete (net : Request → Bool) (f : FileObj) :
    PyOut Bool × List Request :=
  match f._api with
  | none => (.exn (str "AttributeError"), [])
  | some _ =>
    match f.id with
    | .exn m => (.exn m, [])
    | .val v =>
      let req : Request :=
        ⟨str "DELETE", _api_base ++ str "/files/" ++ pyStrOf v, []⟩
      (.val (net req), [req])

/-- `File.update(name, colour)`: build the body dict
`{'uuid': self.id, 'title': name if name else self.title,
'colour': colour if colour else self.colour}` first, then resolve the
`files` endpoint, then call `self._api._post` — the `self._api` read —
and return the truthiness of the response. -/
def fileUpdate (net : Request → Bool) (f : FileObj)
    (name : Option Str) (colour : Option Int) : PyOut Bool × List Request :=
  match f.id with
  | .exn m => (.exn m, [])
  | .val uuid =>
    let titlePart : PyOut JVal :=
      match name with
      | some n =>
        if !n.isEmpty then .val (.jstr n)
        else
          match f.title with
          | .exn m => .exn m
          | .val t => .val (optJ t)
      | none =>
        match f.title with
        | .exn m => .exn m
        | .val t => .val (optJ t)
    match titlePart with
    | .exn m => (.exn m, [])
    | .val titleV =>
      let colourPart : PyOut JVal :=
        match colour with
        | some c =>
          if c != 0 then .val (.jint c)
          else
            match f.colour with
            | .exn m => .exn m
            | .val cv => .val (.jint cv)
        | none =>
          match f.colour with
          | .exn m => .exn m
          | .val cv => .val (.jint cv)
      match colourPart with
      | .exn m => (.exn m, [])
      | .val colourV =>
        match _get_endpoint (str "files") with
        | none => (.exn (str "AttributeError"), [])
        | some e =>
          let url := _make_url _api_base e []
          match f._api with
          | none => (.exn (str "AttributeError"), [])
          | some _ =>
            let req : Request :=
              ⟨str "POST", url,
               [(str "uuid", optJ uuid), (str "title", titleV),
                (str "colour", colourV)]⟩
            (.val (net req), [req])

theorem dictGet_of_mem_keys {α : Type} :
    ∀ (l : List (Str × α)) (k : Str), k ∈ l.map Prod.fst →
      ∃ v, dictGet l k = some v ∧ (k, v) ∈ l := by
  intro l
  induction l with
  | nil => intro k h; simp at h
  | cons kv rest ih =>
    intro k h
    by_cases hk : kv.1 = k
    · refine ⟨kv.2, ?_, ?_⟩
      · simp [dictGet, hk]
      · rw [← hk, Prod.mk.eta]
        exact List.mem_cons_self _ _
    · have : k ∈ rest.map Prod.fst := by
        simp only [List.map_cons, List.mem_cons] at h
        rcases h with h | h
        · exact absurd h.symm hk
        · exact h
      obtain ⟨v, hv, hmem⟩ := ih k this
      exact ⟨v, by simp [dictGet, hk, hv], List.mem_cons_of_mem _ hmem⟩

theorem dictGet_of_not_mem_keys {α : Type} :
    ∀ (l : List (Str × α)) (k : Str), k ∉ l.map Prod.fst →
      dictGet l k = none := by
  intro l
  induction l with
  | nil => intro k _; rfl
  | cons kv rest ih =>
    intro k h
    simp only [List.map_cons, List.mem_cons, not_or] at h
    have h1 : kv.1 ≠ k := fun he => h.1 he.symm
    simp [dictGet, h1, ih k h.2]

/-- C9: `_get_endpoint` maps each known name to its table entry and any
unknown name to `None`; `_make_url` strips exactly one leading slash from
the endpoint when one is present (a second slash survives), joins base
and endpoint with a single `/`, and appends the suffix verbatim.  Both
are pure functions of their arguments. -/
theorem router_resolves_and_builds_urls :
    (∀ n, n ∈ endpoints.map Prod.fst →
       ∃ p, _get_endpoint n = some p ∧ (n, p) ∈ endpoints) ∧
    (∀ n, n ∉ endpoints.map Prod.fst → _get_endpoint n = none) ∧
    (∀ base rest suffix : Str,
       _make_url base ('/' :: rest) suffix = base ++ ['/'] ++ rest ++ suffix) ∧
    (∀ base path suffix : Str, path.head? ≠ some '/' →
       _make_url base path suffix = base ++ ['/'] ++ path ++ suffix) ∧
    (∀ base rest suffix : Str,
       _make_url base ('/' :: '/' :: rest) suffix =
         base ++ ['/'] ++ ('/' :: rest) ++ suffix) := by
  refine ⟨?_, ?_, ?_, ?_, ?_⟩
  · intro n h
    exact dictGet_of_mem_keys endpoints n h
  · intro n h
    exact dictGet_of_not_mem_keys endpoints n h
  · intro base rest suffix
    rfl
  · intro base path suffix h
    cases path with
    | nil => rfl
    | cons c cs =>
      have hne : c ≠ '/' := by
        intro he
        exact h (by simp [he])
      simp only [_make_url]
      split
      · rename_i rest heq
        injection heq with h1 _
        exact absurd h1 hne
      · rfl
  · intro base rest suffix
    rfl

theorem router_resolves_witness :
    (_get_endpoint (str "login")).isSome = true ∧
    _get_endpoint (str "bogus") = none ∧
    _make_url (str "base") ('/' :: str "user/login") (str "") =
      str "base" ++ ['/'] ++ str "user/login" ++ str "" ∧
    _make_url (str "base") (str "trending") (str ".json") =
      str "base" ++ ['/'] ++ str "trending" ++ str ".json" := by
  refine ⟨?_, ?_, ?_, ?_⟩
  · obtain ⟨p, hp, _⟩ :=
      router_resolves_and_builds_urls.1 (str "login") (by decide)
    rw [hp]
    rfl
  · exact router_resolves_and_builds_urls.2.1 (str "bogus") (by decide)
  · exact router_resolves_and_builds_urls.2.2.1 (str "base") (str "user/login") (str "")
  · exact router_resolves_and_builds_urls.2.2.2.1 (str "base") (str "trending")
      (str ".json") (by decide)

/-- Claim C8: when the HTTP response is falsy, the JSON-returning request
helpers `_get_json` and `_post_json` return an empty JSON object — a
value, not a raised failure — so callers observe "empty". -/
theorem json_helpers_empty_on_falsy_response (res : Response)
    (h : res.ok = false) :
    _get_json res = .jobj [] ∧ _post_json res = .jobj [] := by
  simp [_get_json, _post_json, h]

theorem json_helpers_empty_witness :
    _get_json ⟨false, .jarr [.jint 7]⟩ = .jobj [] ∧
    _post_json ⟨false, .jarr [.jint 7]⟩ = .jobj [] :=
  json_helpers_empty_on_falsy_response ⟨false, .jarr [.jint 7]⟩ rfl

/-- Claim C4, counterexample: a falsy login response (rejected
credentials) makes `_login` return normally with the token slot still
empty — nothing is raised; and a truthy response whose body is a
non-empty object without a `token` field raises `KeyError`.  No
`AuthError` exists anywhere in the code. -/
theorem login_silent_on_rejected_credentials :
    _login ⟨false, .jobj []⟩ none = .val none ∧
    _login ⟨true, .jobj [(str "ok", .jbool true)]⟩ none =
      .exn (str "KeyError") :=
  ⟨rfl, rfl⟩

/-- Claim C4, amended: on a truthy response whose body is a non-empty
object, `_login` stores `data['token']` when the field is present and
raises `KeyError` when it is absent; on a falsy response it silently
leaves the token unchanged (no error of any kind is raised). -/
theorem login_amended (res : Response) (tok : Option JVal) :
    (res.ok = false → _login res tok = .val tok) ∧
    (∀ fs, res.ok = true → res.body = .jobj fs → fs.isEmpty = false →
      (dictGet fs (str "token") = none →
         _login res tok = .exn (str "KeyError")) ∧
      (∀ v, dictGet fs (str "token") = some v →
         _login res tok = .val (some v))) := by
  constructor
  · intro h
    simp [_login, _post_json, h, truthy]
  · intro fs hok hbody hne
    constructor
    · intro hget
      simp [_login, _post_json, hok, hbody, truthy, hne, pySubscript, hget]
    · intro v hget
      simp [_login, _post_json, hok, hbody, truthy, hne, pySubscript, hget]

theorem login_amended_witness :
    _login ⟨true, .jobj [(str "token", .jstr (str "tok123"))]⟩ none =
      .val (some (.jstr (str "tok123"))) ∧
    _login ⟨false, .jobj []⟩ (some (.jstr (str "old"))) =
      .val (some (.jstr (str "old"))) :=
  ⟨((login_amended ⟨true, .jobj [(str "token", .jstr (str "tok123"))]⟩ none).2
      [(str "token", .jstr (str "tok123"))] rfl rfl rfl).2
      (.jstr (str "tok123")) rfl,
   (login_amended ⟨false, .jobj []⟩ (some (.jstr (str "old")))).1 rfl⟩

theorem make_podcasts_empty_of_missing_key (fs : List (Str × JVal))
    (h : dictGet fs (str "podcasts") = none) :
    _make_podcasts (.jobj fs) = .val [] := by
  by_cases hfs : fs.isEmpty = true
  · simp [_make_podcasts, truthy, hfs]
  · simp [_make_podcasts, truthy, hfs, pyGet, h, truthyOpt]

theorem make_episodes_empty_of_missing_key
    (fetch : Option JVal → Option Podcast) (fuel : Nat)
    (fs : List (Str × JVal)) (pod : Option Podcast)
    (h : dictGet fs (str "episodes") = none) :
    _make_episodes fetch fuel (.jobj fs) pod = some (.val []) := by
  by_cases hfs : fs.isEmpty = true
  · simp [_make_episodes, truthy, hfs]
  · simp [_make_episodes, truthy, hfs, pyGet, h, truthyOpt]

/-- Claim C7: every listing operation returns the empty sequence, not a
failure, when the JSON response body is an object lacking the expected
collection key — `podcasts` for the podcast-list operations, `episodes`
for the episode-list operations. -/
theorem listings_empty_on_missing_collection_key :
    (∀ (fs : List (Str × JVal)) (ok : Bool),
       dictGet fs (str "podcasts") = none →
       subscriptions ⟨ok, .jobj fs⟩ = .val [] ∧
       search ⟨ok, .jobj fs⟩ = .val [] ∧
       trending ⟨ok, .jobj fs⟩ = .val [] ∧
       content ⟨ok, .jobj fs⟩ = .val []) ∧
    (∀ (fs : List (Str × JVal)) (ok : Bool)
       (fetch : Option JVal → Option Podcast) (fuel : Nat),
       dictGet fs (str "episodes") = none →
       starredList fetch fuel ⟨ok, .jobj fs⟩ = some (.val []) ∧
       historyList fetch fuel ⟨ok, .jobj fs⟩ = some (.val []) ∧
       in_progressList fetch fuel ⟨ok, .jobj fs⟩ = some (.val []) ∧
       new_releasesList fetch fuel ⟨ok, .jobj fs⟩ = some (.val []) ∧
       recommendationsList fetch fuel ⟨ok, .jobj fs⟩ = some (.val [])) := by
  constructor
  · intro fs ok h
    cases ok with
    | false =>
      refine ⟨?_, ?_, ?_, ?_⟩ <;>
        simp [subscriptions, search, trending, content, _post_json, _get_json,
              _make_podcasts, truthy]
    | true =>
      have he := make_podcasts_empty_of_missing_key fs h
      refine ⟨?_, ?_, ?_, ?_⟩ <;>
        simpa [subscriptions, search, trending, content, _post_json, _get_json]
          using he
  · intro fs ok fetch fuel h
    cases ok with
    | false =>
      refine ⟨?_, ?_, ?_, ?_, ?_⟩ <;>
        simp [starredList, historyList, in_progressList, new_releasesList,
              recommendationsList, _post_json, _make_episodes, truthy]
    | true =>
      have he := make_episodes_empty_of_missing_key fetch fuel fs none h
      refine ⟨?_, ?_, ?_, ?_, ?_⟩ <;>
        simpa [starredList, historyList, in_progressList, new_releasesList,
               recommendationsList, _post_json]
          using he

theorem listings_empty_witness :
    subscriptions ⟨true, .jobj [(str "x", .jint 1)]⟩ = .val [] ∧
    starredList (fun _ => none) 0 ⟨true, .jobj [(str "x", .jint 1)]⟩ =
      some (.val []) :=
  ⟨(listings_empty_on_missing_collection_key.1 [(str "x", .jint 1)] true rfl).1,
   (listings_empty_on_missing_collection_key.2 [(str "x", .jint 1)] true
      (fun _ => none) 0 rfl).1⟩

/-- Claim C3, counterexample: two of the cited field-projection accessors
raise on a payload missing their key — `Episode.playing` evaluates
`None > 0` and `Stats.silence_time_removed` evaluates `int(None)`, both
`TypeError` — refuting "never raises on a missing key". -/
theorem accessor_raises_on_missing_key :
    Episode.playing (.jobj []) = .exn (str "TypeError") ∧
    Stats.silence_time_removed (.jobj []) = .exn (str "TypeError") :=
  ⟨rfl, rfl⟩

/-- Claim C3, amended: accessors that return the raw `dict.get`
projection (title, id, duration, url, size, starred, current position)
return the field value, or `None` when absent, and never raise; but the
accessors that post-process the raw value — `Episode.playing` compares it
with 0, `Stats.silence_time_removed` applies `int()` — raise `TypeError`
when the field is absent, and return a value when it is an integer. -/
theorem accessors_safe_except_coercing (fs : List (Str × JVal)) :
    Episode.title (.jobj fs) = .val (dictGet fs (str "title")) ∧
    Episode.id (.jobj fs) = .val (dictGet fs (str "uuid")) ∧
    Episode.duration (.jobj fs) = .val (dictGet fs (str "duration")) ∧
    Episode.url (.jobj fs) = .val (dictGet fs (str "url")) ∧
    Episode.size (.jobj fs) = .val (dictGet fs (str "size")) ∧
    Episode.starred (.jobj fs) = .val (dictGet fs (str "starred")) ∧
    Episode.current_position (.jobj fs) = .val (dictGet fs (str "playedUpTo")) ∧
    (dictGet fs (str "playing_status") = none →
       Episode.playing (.jobj fs) = .exn (str "TypeError")) ∧
    (∀ n, dictGet fs (str "playing_status") = some (.jint n) →
       Episode.playing (.jobj fs) = .val (decide (0 < n))) ∧
    (dictGet fs (str "timeSilenceRemoval") = none →
       Stats.silence_time_removed (.jobj fs) = .exn (str "TypeError")) ∧
    (∀ n, dictGet fs (str "timeSilenceRemoval") = some (.jint n) →
       Stats.silence_time_removed (.jobj fs) = .val n) := by
  refine ⟨rfl, rfl, rfl, rfl, rfl, rfl, rfl, ?_, ?_, ?_, ?_⟩
  · intro h
    simp [Episode.playing, pyGet, h, pyGtZero]
  · intro n h
    simp [Episode.playing, pyGet, h, pyGtZero]
  · intro h
    simp [Stats.silence_time_removed, pyGet, h, pyInt]
  · intro n h
    simp [Stats.silence_time_removed, pyGet, h, pyInt]

theorem accessors_safe_witness :
    Episode.title (.jobj []) = .val (dictGet ([] : List (Str × JVal)) (str "title")) ∧
    Episode.playing (.jobj [(str "playing_status", .jint 3)]) =
      .val (decide ((0 : Int) < 3)) :=
  ⟨(accessors_safe_except_coercing []).1,
   (accessors_safe_except_coercing
      [(str "playing_status", .jint 3)]).2.2.2.2.2.2.2.2.1 3 rfl⟩

/-- Claim C2: for an episode whose payload carries an integer duration
and whose `podcast_id` resolves, `update_progress(progress)` raises the
client-side validation error and issues no request when
`progress > duration`; when `progress ≤ duration` it issues exactly one
request whose body carries the supplied position, returning the
truthiness of the response. -/
theorem update_progress_validates_then_posts_once (post : Request → Bool)
    (s : EpisodeState) (progress dur : Int) (pid : Option JVal)
    (hdur : Episode.duration s._data = .val (some (.jint dur)))
    (hpid : podcast_id s = some (.val pid)) :
    (dur < progress → update_progress post s progress =
       some (.exn (str "Cannot update with progress longer than episode duration"), [])) ∧
    (progress ≤ dur → ∃ req, update_progress post s progress =
       some (.val (post req), [req]) ∧
       dictGet req.body (str "position") = some (.jint progress)) := by
  rcases hd : s._data with _ | _ | _ | _ | _ | fs <;>
    rw [hd] at hdur <;>
    simp only [Episode.duration, pyGet] at hdur
  · cases hdur
  · cases hdur
  · cases hdur
  · cases hdur
  · cases hdur
  constructor
  · intro hlt
    simp [update_progress, Episode.duration, pyGet, hd, hdur, pyGtInt, hlt]
  · intro hle
    have hnlt : ¬dur < progress := not_lt.mpr hle
    refine ⟨⟨str "POST",
      _make_url _api_base (str "sync/update_episode") [],
      [(str "uuid", optJ (dictGet fs (str "uuid"))), (str "podcast", optJ pid),
       (str "status", .jint 2), (str "position", .jint progress)]⟩, ?_, ?_⟩
    · simp [update_progress, Episode.duration, Episode.id, pyGet, hd, hdur,
            pyGtInt, hnlt, hpid, _get_endpoint]
      rfl
    · rfl

theorem update_progress_witness :
    update_progress (fun _ => true)
      ⟨.jobj [(str "duration", .jint 100), (str "uuid", .jstr (str "e1")),
              (str "podcastUuid", .jstr (str "p1"))], none⟩ 200 =
      some (.exn (str "Cannot update with progress longer than episode duration"), []) :=
  (update_progress_validates_then_posts_once (fun _ => true)
    ⟨.jobj [(str "duration", .jint 100), (str "uuid", .jstr (str "e1")),
            (str "podcastUuid", .jstr (str "p1"))], none⟩ 200 100
    (some (.jstr (str "p1"))) rfl rfl).1 (by decide)

/-- Claim C1, counterexample: an `Episode` whose lazy resolution found no
podcast (the fetch oracle answers `None`) re-issues the fetch-by-id call
on every read of `podcast`: two consecutive reads on the same instance
issue two network calls, not at most one.  The instance itself arises
from `Episode.__init__` under the same oracle. -/
theorem lazy_resolution_retries_after_none :
    episodeInit (fun _ => none) 1
      (.jobj [(str "podcastUuid", .jstr (str "p1"))]) none =
      some (.val ⟨.jobj [(str "podcastUuid", .jstr (str "p1"))], none⟩) ∧
    podcast_read (fun _ _ => none)
      ⟨.jobj [(str "podcastUuid", .jstr (str "p1"))], none⟩ 0 =
      some (.val none, ⟨.jobj [(str "podcastUuid", .jstr (str "p1"))], none⟩, 1) ∧
    podcast_read (fun _ _ => none)
      ⟨.jobj [(str "podcastUuid", .jstr (str "p1"))], none⟩ 1 =
      some (.val none, ⟨.jobj [(str "podcastUuid", .jstr (str "p1"))], none⟩, 2) :=
  ⟨rfl, rfl, rfl⟩

/-- Claim C1, amended: a single read of `Episode.podcast` issues at most
one fetch-by-id call, and once a read resolves to an actual podcast the
resolution is cached: the next read returns the same podcast with no
network call, even though the oracle may answer differently on later
calls (no invalidation).  A read that resolved to `None` is not cached
and the next read fetches again. -/
theorem lazy_resolution_cached_once_resolved
    (fetch : Nat → Option JVal → Option Podcast) (s : EpisodeState)
    (c : Nat) (r : PyOut (Option Podcast)) (s' : EpisodeState) (c' : Nat)
    (h : podcast_read fetch s c = some (r, s', c')) :
    c' ≤ c + 1 ∧
    ∀ p, r = .val (some p) →
      podcast_read fetch s' c' = some (.val (some p), s', c') := by
  cases hp : s._podcast with
  | some p =>
    rw [podcast_read, hp] at h
    injection h with h
    cases h
    refine ⟨Nat.le_succ c, ?_⟩
    intro p' hr
    injection hr with hr
    cases hr
    rw [podcast_read, hp]
  | none =>
    rw [podcast_read, hp] at h
    rcases hq : podcast_id s with _ | r'
    · rw [hq] at h
      cases h
    · rw [hq] at h
      cases r' with
      | exn m =>
        injection h with h
        cases h
        refine ⟨Nat.le_succ c, ?_⟩
        intro p' hr
        cases hr
      | val pid =>
        injection h with h
        cases h
        refine ⟨Nat.le_refl _, ?_⟩
        intro p' hr
        injection hr with hr
        rw [podcast_read]
        simp only []
        rw [hr]

theorem lazy_resolution_cached_witness :
    podcast_read (fun _ _ => some ⟨.jobj [], .jobj [], false⟩)
      ⟨.jobj [(str "podcastUuid", .jstr (str "p1"))],
       some ⟨.jobj [], .jobj [], false⟩⟩ 1 =
      some (.val (some ⟨.jobj [], .jobj [], false⟩),
        ⟨.jobj [(str "podcastUuid", .jstr (str "p1"))],
         some ⟨.jobj [], .jobj [], false⟩⟩, 1) ∧
    1 ≤ 0 + 1 :=
  ⟨(lazy_resolution_cached_once_resolved
      (fun _ _ => some ⟨.jobj [], .jobj [], false⟩)
      ⟨.jobj [(str "podcastUuid", .jstr (str "p1"))], none⟩ 0
      (.val (some ⟨.jobj [], .jobj [], false⟩))
      ⟨.jobj [(str "podcastUuid", .jstr (str "p1"))],
       some ⟨.jobj [], .jobj [], false⟩⟩ 1 rfl).2
      ⟨.jobj [], .jobj [], false⟩ rfl,
   (lazy_resolution_cached_once_resolved
      (fun _ _ => some ⟨.jobj [], .jobj [], false⟩)
      ⟨.jobj [(str "podcastUuid", .jstr (str "p1"))], none⟩ 0
      (.val (some ⟨.jobj [], .jobj [], false⟩))
      ⟨.jobj [(str "podcastUuid", .jstr (str "p1"))],
       some ⟨.jobj [], .jobj [], false⟩⟩ 1 rfl).1⟩

theorem podcastIdF_none_of_falsy (fetch : Option JVal → Option Podcast)
    (s : EpisodeState) (v : Option JVal)
    (hget : pyGet s._data (str "podcastUuid") = .val v)
    (hfalsy : truthyOpt v = false) (hpod : s._podcast = none) :
    ∀ fuel, podcastIdF fetch true fuel s = none ∧
      podcastPropF fetch true fuel s = none := by
  intro fuel
  induction fuel with
  | zero => exact ⟨rfl, rfl⟩
  | succ f ih =>
    constructor
    · rw [podcastIdF, hget]
      simp [hfalsy, ih.2]
    · rw [podcastPropF, hpod]
      simp [ih.1]

/-- The direct-form `podcast_id` agrees with the fuelled interpreter of
the mutual recursion on a fully constructed instance (`apiSet = true`)
whenever at least two units of fuel are available (in the divergent
configuration both sides are `none` at every fuel). -/
theorem podcast_id_agrees_with_fuel (fetch : Option JVal → Option Podcast)
    (s : EpisodeState) (fuel : Nat) (h : 2 ≤ fuel) :
    podcastIdF fetch true fuel s = podcast_id s := by
  obtain ⟨f, rfl⟩ : ∃ f, fuel = f + 2 := ⟨fuel - 2, by omega⟩
  rcases hg : pyGet s._data (str "podcastUuid") with v | m
  · cases ht : truthyOpt v with
    | true =>
      rw [podcastIdF, podcast_id, hg]
      simp [ht]
    | false =>
      cases hp : s._podcast with
      | some p =>
        rw [podcastIdF, podcast_id, hg]
        simp [ht, hp, podcastPropF]
      | none =>
        rw [podcast_id, hg]
        simp only [ht, Bool.false_eq_true, if_false, hp]
        exact (podcastIdF_none_of_falsy fetch s v hg ht hp (f + 2)).1
  · rw [podcastIdF, podcast_id, hg]

/-- Claim C10, counterexample: constructing an `Episode` with a falsy
`podcast` argument over a payload lacking `podcastUuid` terminates — the
interpreter returns at the finite fuel 2 — contradicting "does not
terminate": the first re-entry into the `podcast` property reads
`self._api`, which `__init__` has not yet assigned (it is assigned only
after the lazy fetch), so `AttributeError` is raised before any
recursion. -/
theorem episode_init_terminates :
    episodeInit (fun _ => none) 2 (.jobj []) none =
      some (.exn (str "AttributeError")) :=
  rfl

/-- Claim C10, amended: constructing an `Episode` with a falsy `podcast`
argument over a payload lacking the `podcastUuid` key raises
`AttributeError` before any network call: `__init__` evaluates
`self.podcast_id`, whose fallback reads `self.podcast`, which
dereferences the not-yet-assigned `self._api` — `__init__` assigns it
only after the lazy fetch — so construction terminates with the error
and issues no fetch (the result is the same for every fetch oracle),
given fuel for the two evaluation steps involved. -/
theorem episode_init_raises_before_any_fetch
    (fetch : Option JVal → Option Podcast) (fuel : Nat)
    (fs : List (Str × JVal))
    (h : dictGet fs (str "podcastUuid") = none) (hfuel : 2 ≤ fuel) :
    episodeInit fetch fuel (.jobj fs) none =
      some (.exn (str "AttributeError")) := by
  obtain ⟨f, rfl⟩ : ∃ f, fuel = f + 2 := ⟨fuel - 2, by omega⟩
  rw [episodeInit, podcastIdF]
  simp [pyGet, h, truthyOpt, podcastPropF]

theorem episode_init_raises_witness :
    episodeInit (fun _ => none) 5 (.jobj []) none =
      some (.exn (str "AttributeError")) :=
  episode_init_raises_before_any_fetch (fun _ => none) 5 [] rfl (by decide)

/-- Claim C6: the category-by-name scan cannot return a match, because
`_make_categories` appends `Category(data=json_data)` — the whole
response array, not the loop element `cat` — so reading `.name` on any
produced category raises `AttributeError` (a list has no `.get`).  On the
response `[{"name": "News"}]` the query "news" raises instead of
returning the category; the loop as the spec describes it (one category
per element, `category_intended`) returns the first case-insensitive
match. -/
theorem category_by_name_raises_on_match :
    category ⟨true, .jarr [.jobj [(str "name", .jstr (str "News"))]]⟩
      (str "news") = .exn (str "AttributeError") ∧
    category_intended ⟨true, .jarr [.jobj [(str "name", .jstr (str "News"))]]⟩
      (str "news") =
      .val (some (Category.mk (.jobj [(str "name", .jstr (str "News"))]))) ∧
    category ⟨true, .jarr []⟩ (str "news") = .val none :=
  ⟨rfl, rfl, rfl⟩

/-- Claim C5: a `File` constructed by `File.__init__` — which stores the
payload and never assigns `self._api` — cannot issue any request:
`delete` raises `AttributeError` immediately, and `update` raises before
reaching `self._api._post` (an `AttributeError` there, or an earlier
`TypeError` from coercing a missing `colour`), in every case issuing an
empty request list and returning no boolean. -/
theorem file_actions_raise_and_never_request (net : Request → Bool)
    (data : JVal) (name : Option Str) (colour : Option Int) :
    fileDelete net (fileInit data) = (.exn (str "AttributeError"), []) ∧
    (fileUpdate net (fileInit data) name colour).2 = [] ∧
    (∃ m, (fileUpdate net (fileInit data) name colour).1 = .exn m) := by
  refine ⟨rfl, ?_⟩
  unfold fileUpdate
  rcases hid : (fileInit data).id with uuid | m
  · simp only [hid]
    repeat' split
    all_goals try exact ⟨rfl, _, rfl⟩
    rename_i heq
    rw [show (fileInit data)._api = none from rfl] at heq
    exact Option.noConfusion heq
  · simp [hid]

end PycketCasts
